import Mathlib

/-!
# Page interaction script (`src/script.js`)

A shallow embedding of the event handlers that `script.js` registers on
`DOMContentLoaded`, and the properties of the handlers.

Modelling conventions.

* A `classList` is the ordered list of class tokens of an element, with the
  DOM operations `contains`, `add`, `remove` and `toggle`.
* `getAttribute` returns `null` when the attribute is absent: attribute
  values are `Option String`, and a `null` passed where a string is
  expected is converted to the string `"null"`.
* `window.scrollY` and `getBoundingClientRect().top` are finite doubles and
  may be fractional: they are rationals. `offsetTop`, `offsetHeight` and
  `innerHeight` are integers.
* A handler that throws keeps the mutations made before the throw: handlers
  that can throw return the state reached together with the error, if any.
* `document.querySelector` is interpreted on the empty string, on strings
  starting with `#` that are not id selectors, and on `#id.class...`
  selectors over plain identifiers, against the elements of the document;
  its result on any other selector string is a parameter of the document.
* The elements looked up by a fixed id or selector (`#navMenu`,
  `#hamburger`, `.header`, `#scrollToTopBtn`) are supplied by the markup
  and are part of the state.
-/

namespace Script

/-! ## DOM primitives -/

/-- The class tokens of an element, in order. -/
abbrev ClassList := List String

namespace ClassList

/-- `classList.contains(token)`. -/
def contains (c : ClassList) (token : String) : Bool :=
  c.any (fun t => t == token)

/-- `classList.add(token)`: appends the token unless it is present. -/
def add (c : ClassList) (token : String) : ClassList :=
  if c.contains token then c else c ++ [token]

/-- `classList.remove(token)`. -/
def remove (c : ClassList) (token : String) : ClassList :=
  c.filter (fun t => t != token)

/-- `classList.toggle(token)`: removes the token when present, adds it
otherwise. -/
def toggle (c : ClassList) (token : String) : ClassList :=
  if c.contains token then c.remove token else c.add token

end ClassList

/-- Runtime errors raised by the handlers. -/
inductive JSError where
  | typeError
  | syntaxError
  deriving DecidableEq, Repr

/-- String conversion of an attribute value used as a string argument:
`null` becomes `"null"`. -/
def toStr : Option String → String
  | some s => s
  | none => "null"

/-- Whether `s` begins with `t`, character by character. -/
def startsWith : List Char → List Char → Bool
  | _, [] => true
  | [], _ :: _ => false
  | a :: s, b :: t => a == b && startsWith s t

/-- Scan of `s` for an occurrence of `t`, trying every start position from
the left. -/
def includesFrom : List Char → List Char → Bool
  | [], t => startsWith [] t
  | a :: s, t => startsWith (a :: s) t || includesFrom s t

/-- `s.includes(t)` of JavaScript strings. For well-formed strings an
occurrence over UTF-16 code units is an occurrence over characters. -/
def includes (s t : String) : Bool :=
  includesFrom s.data t.data

/-- Says that `t` occurs in `s` as a substring. -/
def IsSubstring (t s : String) : Prop :=
  ∃ pre post : List Char, s.data = pre ++ t.data ++ post

/-! ## Smooth anchor navigation and the mobile menu (lines 3-26) -/

/-- Identity of an element of the document. -/
abbrev Elem := Nat

/-- Result of `document.querySelector(selector)`: an element, `null`, or a
`SyntaxError` for a string that is not a valid selector. -/
inductive QueryResult where
  | found (e : Elem)
  | null
  | invalid
  deriving DecidableEq, Repr

/-- An element of the document: its identity, its `id` attribute and its
class list. -/
structure Element where
  elem : Elem
  id : Option String
  classList : ClassList
  deriving DecidableEq, Repr

/-- The document the anchor handler queries: its elements in tree order, and
the result of `querySelector` on the selector strings that `parseSelector`
leaves uninterpreted (combinators, type and attribute selectors, escapes,
non-ASCII names). The document is in standards mode: ids and classes match
case-sensitively. -/
structure Document where
  elements : List Element
  otherSelector : String → QueryResult

/-- ASCII decimal digit. -/
def isDigit (c : Char) : Bool :=
  decide (48 ≤ c.toNat ∧ c.toNat ≤ 57)

/-- First character of a plain identifier: an ASCII letter or `_`. -/
def isNameStart (c : Char) : Bool :=
  decide ((65 ≤ c.toNat ∧ c.toNat ≤ 90) ∨ (97 ≤ c.toNat ∧ c.toNat ≤ 122) ∨ c.toNat = 95)

/-- Character of a plain identifier: an ASCII letter, a digit, `_` or `-`. -/
def isNameChar (c : Char) : Bool :=
  isNameStart c || isDigit c || decide (c.toNat = 45)

/-- A plain identifier: a name-start character followed by name characters.
Every such string is a CSS identifier. -/
def isIdent : List Char → Bool
  | [] => false
  | c :: cs => isNameStart c && cs.all isNameChar

/-- The characters up to the first `.`, and the `.`-separated pieces after it. -/
def splitDots : List Char → List Char × List (List Char)
  | [] => ([], [])
  | c :: cs =>
    if c = '.' then ([], (splitDots cs).1 :: (splitDots cs).2)
    else (c :: (splitDots cs).1, (splitDots cs).2)

/-- The selector strings whose meaning is interpreted here. -/
inductive Selector where
  /-- The compound selector `#id.class1.class2...`. -/
  | compound (id : String) (classes : List String)
  /-- Not a selector: `querySelector` raises a `SyntaxError`. -/
  | invalid
  /-- Any other string. -/
  | other
  deriving DecidableEq, Repr

/-- Reading of the text after a leading `#`. Nothing, or name characters
starting with a digit, is not an id selector (the hash token is not of type
id); plain identifiers separated by `.` are an id selector followed by
class selectors. -/
def parseHash : List Char → Selector
  | [] => .invalid
  | c :: cs =>
    if isDigit c && (c :: cs).all isNameChar then .invalid
    else if isIdent (splitDots (c :: cs)).1 && (splitDots (c :: cs)).2.all isIdent then
      .compound (String.mk (splitDots (c :: cs)).1) ((splitDots (c :: cs)).2.map String.mk)
    else .other

/-- Reading of a selector string: the empty string is not a selector, a
string starting with `#` is read by `parseHash`. -/
def parseSelector (sel : String) : Selector :=
  match sel.data with
  | [] => .invalid
  | c :: rest => if c = '#' then parseHash rest else .other

/-- `document.querySelector(sel)`: the first element in tree order that
matches the selector. -/
def querySelector (doc : Document) (sel : String) : QueryResult :=
  match parseSelector sel with
  | .invalid => .invalid
  | .compound id classes =>
    match doc.elements.find?
        (fun e => e.id == some id && classes.all (fun c => e.classList.contains c)) with
    | some e => .found e.elem
    | none => .null
  | .other => doc.otherSelector sel

/-- The element an href refers to, in the spec's words: a fragment reference
`#id` is "a same-document navigation target identified by an element's
unique identifier". An absent href, an href that is no fragment reference and
the empty fragment refer to no element. -/
def fragmentTarget (doc : Document) (href : Option String) : Option Element :=
  match href with
  | none => none
  | some h =>
    match h.data with
    | [] => none
    | c :: frag =>
      if c = '#' ∧ frag ≠ [] then
        doc.elements.find? (fun e => e.id == some (String.mk frag))
      else none

/-- Calls on the platform made by a handler, in order. -/
inductive Effect where
  | preventDefault
  | scrollIntoView (target : Elem) (behavior : String)
  deriving DecidableEq, Repr

/-- Class lists of `#navMenu` and `#hamburger`. -/
structure Menu where
  navMenu : ClassList
  hamburger : ClassList
  deriving DecidableEq, Repr

/-- What a handler invocation leaves behind: the menu state, the platform
calls made, and the error that aborted it, if any. -/
structure Outcome where
  menu : Menu
  effects : List Effect
  error : Option JSError
  deriving DecidableEq, Repr

/-- Click listener of a navigational anchor (lines 4-16). `href` is
`this.getAttribute('href')`. -/
def anchorClick (doc : Document) (href : Option String) (m : Menu) : Outcome :=
  -- e.preventDefault();
  let effects := [Effect.preventDefault]
  -- document.querySelector(this.getAttribute('href')).scrollIntoView({...})
  match querySelector doc (toStr href) with
  | .invalid => { menu := m, effects := effects, error := some .syntaxError }
  | .null => { menu := m, effects := effects, error := some .typeError }
  | .found e =>
    let effects := effects ++ [Effect.scrollIntoView e "smooth"]
    -- Close mobile menu if open
    if m.navMenu.contains "active" then
      { menu := { navMenu := m.navMenu.remove "active",
                  hamburger := m.hamburger.remove "active" },
        effects := effects, error := none }
    else
      { menu := m, effects := effects, error := none }

/-- Click listener of the hamburger (lines 23-26). -/
def hamburgerClick (m : Menu) : Menu :=
  { navMenu := m.navMenu.toggle "active",
    hamburger := m.hamburger.toggle "active" }

/-- The operations that touch the menu and the hamburger. -/
inductive MenuEvent where
  | hamburgerClick
  | anchorClick (doc : Document) (href : Option String)

/-- State after one event. -/
def step (m : Menu) : MenuEvent → Menu
  | .hamburgerClick => hamburgerClick m
  | .anchorClick doc href => (anchorClick doc href m).menu

/-- State after a sequence of events, oldest first. -/
def run (m : Menu) (events : List MenuEvent) : Menu :=
  events.foldl step m

/-- The menu and the hamburger agree on having the `active` class. -/
def InSync (m : Menu) : Prop :=
  m.navMenu.contains "active" = m.hamburger.contains "active"

instance (m : Menu) : Decidable (InSync m) := by
  unfold InSync; infer_instance

/-! ## Active-link highlighting (lines 29-50) -/

/-- A `section` element: its `id` attribute and its `offsetTop`. -/
structure Section where
  id : Option String
  offsetTop : Int
  deriving DecidableEq, Repr

/-- A `.nav-link` element: its `href` attribute and its class list. -/
structure NavLink where
  href : Option String
  classList : ClassList
  deriving DecidableEq, Repr

/-- The test of line 36: `scrollY >= section.offsetTop - header.offsetHeight`. -/
def qualifies (headerHeight : Int) (scrollY : ℚ) (s : Section) : Bool :=
  decide (scrollY ≥ ((s.offsetTop - headerHeight : Int) : ℚ))

/-- The loop of lines 34-39 from a given value of `current`. -/
def currentFrom (headerHeight : Int) (scrollY : ℚ) (current : Option String) :
    List Section → Option String
  | [] => current
  | s :: rest =>
    currentFrom headerHeight scrollY
      (if qualifies headerHeight scrollY s then s.id else current) rest

/-- Value of `current` after the sections loop; it starts as `''`. -/
def currentSection (headerHeight : Int) (scrollY : ℚ) (sections : List Section) :
    Option String :=
  currentFrom headerHeight scrollY (some "") sections

/-- The loop of lines 41-46. A link without `href` raises a `TypeError`
after its `active` class was removed; the links after it are not visited. -/
def markLinks (current : Option String) : List NavLink → List NavLink × Option JSError
  | [] => ([], none)
  | l :: rest =>
    let cleared : NavLink := { l with classList := l.classList.remove "active" }
    match l.href with
    | none => (cleared :: rest, some .typeError)
    | some h =>
      let l2 : NavLink :=
        if includes h (toStr current) then
          { cleared with classList := cleared.classList.add "active" }
        else cleared
      let r := markLinks current rest
      (l2 :: r.1, r.2)

/-- Body of the links loop for one link that has an `href`: what `markLinks`
does to each link when none of them raises. -/
def markOne (current : Option String) (l : NavLink) : NavLink :=
  if includes ((l.href).getD "") (toStr current) then
    { l with classList := (l.classList.remove "active").add "active" }
  else
    { l with classList := l.classList.remove "active" }

/-- The function `updateActiveNavLink` (lines 32-47). -/
def updateActiveNavLink (sections : List Section) (headerHeight : Int) (scrollY : ℚ)
    (navLinks : List NavLink) : List NavLink × Option JSError :=
  markLinks (currentSection headerHeight scrollY sections) navLinks

/-! ## Header shrink and scroll-to-top button (lines 53-73) -/

/-- Inline style of the header. -/
structure HeaderStyle where
  padding : String
  boxShadow : String
  deriving DecidableEq, Repr

/-- Scroll listener of the header (lines 54-62). -/
def headerScroll (scrollY : ℚ) (_prior : HeaderStyle) : HeaderStyle :=
  if scrollY > 0 then
    { padding := "10px 0", boxShadow := "0 2px 15px rgba(0, 0, 0, 0.1)" }
  else
    { padding := "15px 0", boxShadow := "0 2px 10px rgba(0, 0, 0, 0.05)" }

/-- Scroll listener of the scroll-to-top button (lines 67-73): the new
value of `style.display`. -/
def scrollToTopScroll (scrollY : ℚ) (_priorDisplay : String) : String :=
  if scrollY > 300 then "block" else "none"

/-! ## Reveal on scroll (lines 83-97) -/

/-- A `.reveal` element: the top of its bounding box and its class list. -/
structure RevealElem where
  top : ℚ
  classList : ClassList
  deriving DecidableEq, Repr

/-- Body of the loop of `reveal` for one element. -/
def revealOne (windowHeight : Int) (r : RevealElem) : RevealElem :=
  let revealPoint : Int := 150
  if r.top < ((windowHeight - revealPoint : Int) : ℚ) then
    { r with classList := r.classList.add "active" }
  else
    { r with classList := r.classList.remove "active" }

/-- The function `reveal` (lines 83-97). -/
def reveal (windowHeight : Int) (reveals : List RevealElem) : List RevealElem :=
  reveals.map (revealOne windowHeight)

/-- Moves the elements to new bounding-box tops, keeping their classes. -/
def setTops (tops : List ℚ) (reveals : List RevealElem) : List RevealElem :=
  List.zipWith (fun t r => { r with top := t }) tops reveals

/-! ## Sample page -/

/-- Section `S1`, at the top of the page. -/
def S1 : Section := { id := some "S1", offsetTop := 0 }

/-- Section `S2`, 500px down. -/
def S2 : Section := { id := some "S2", offsetTop := 500 }

/-- Section `S3`, 1000px down. -/
def S3 : Section := { id := some "S3", offsetTop := 1000 }

/-- Three nav links, one per section, the first one highlighted. -/
def sampleLinks : List NavLink :=
  [ { href := some "#S1", classList := ["nav-link", "active"] },
    { href := some "#S2", classList := ["nav-link"] },
    { href := some "#S3", classList := ["nav-link"] } ]

/-- A document with the three sections as elements 1, 2 and 3; the examples
use no selector outside the interpreted ones. -/
def sampleDoc : Document :=
  { elements :=
      [ { elem := 1, id := some "S1", classList := [] },
        { elem := 2, id := some "S2", classList := [] },
        { elem := 3, id := some "S3", classList := [] } ],
    otherSelector := fun _ => QueryResult.null }

/-- A document whose only section has the id `1`. -/
def digitDoc : Document :=
  { elements := [ { elem := 1, id := some "1", classList := [] } ],
    otherSelector := fun _ => QueryResult.null }

/-- A document with a section of id `my.section` only. -/
def dottedOnlyDoc : Document :=
  { elements := [ { elem := 1, id := some "my.section", classList := [] } ],
    otherSelector := fun _ => QueryResult.null }

/-- A document with an element of id `my` and class `section` and no element
of id `my.section`. -/
def classDoc : Document :=
  { elements := [ { elem := 2, id := some "my", classList := ["section"] } ],
    otherSelector := fun _ => QueryResult.null }

/-- An open mobile menu. -/
def openMenu : Menu :=
  { navMenu := ["nav-menu", "active"], hamburger := ["hamburger", "active"] }

/-- A closed mobile menu. -/
def closedMenu : Menu :=
  { navMenu := ["nav-menu"], hamburger := ["hamburger"] }

/-! ## Lemmas on class lists -/

theorem ClassList.contains_iff_mem (c : ClassList) (t : String) :
    c.contains t = true ↔ t ∈ c := by
  simp [ClassList.contains]

theorem ClassList.contains_add_self (c : ClassList) (t : String) :
    (c.add t).contains t = true := by
  unfold ClassList.add
  split
  · assumption
  · simp [ClassList.contains]

theorem ClassList.contains_remove_self (c : ClassList) (t : String) :
    (c.remove t).contains t = false := by
  simp [ClassList.remove, ClassList.contains]

theorem ClassList.remove_eq_self (c : ClassList) (t : String)
    (h : c.contains t = false) : c.remove t = c := by
  unfold ClassList.remove
  rw [List.filter_eq_self]
  intro a ha
  have hne : ¬ t ∈ c := by
    rw [← ClassList.contains_iff_mem]; simp [h]
  have : a ≠ t := fun e => hne (e ▸ ha)
  simpa using this

theorem ClassList.add_eq_self (c : ClassList) (t : String)
    (h : c.contains t = true) : c.add t = c := by
  simp [ClassList.add, h]

theorem ClassList.contains_toggle_self (c : ClassList) (t : String) :
    (c.toggle t).contains t = !c.contains t := by
  unfold ClassList.toggle
  cases h : c.contains t
  · simp [ClassList.contains_add_self]
  · simp [ClassList.contains_remove_self]

/-! ## Lemmas on the selector lookup -/

theorem isNameStart_not_isDigit (c : Char) (h : isNameStart c = true) : isDigit c = false := by
  unfold isNameStart at h
  unfold isDigit
  rw [decide_eq_true_eq] at h
  rw [decide_eq_false_iff_not]
  omega

theorem isNameChar_ne_dot (c : Char) (h : isNameChar c = true) : c ≠ '.' := by
  rintro rfl
  revert h
  decide

theorem splitDots_of_nameChars (cs : List Char) (h : cs.all isNameChar = true) :
    splitDots cs = (cs, []) := by
  induction cs with
  | nil => rfl
  | cons c cs ih =>
    rw [List.all_cons, Bool.and_eq_true] at h
    have hc : c ≠ '.' := isNameChar_ne_dot c h.1
    simp only [splitDots, if_neg hc, ih h.2]

theorem parseHash_ident (frag : List Char) (h : isIdent frag = true) :
    parseHash frag = Selector.compound (String.mk frag) [] := by
  cases frag with
  | nil => simp [isIdent] at h
  | cons c cs =>
    have h2 := h
    simp only [isIdent, Bool.and_eq_true] at h2
    have hd : isDigit c = false := isNameStart_not_isDigit c h2.1
    have hall : (c :: cs).all isNameChar = true := by
      simp only [List.all_cons, Bool.and_eq_true]
      exact ⟨by simp [isNameChar, h2.1], h2.2⟩
    simp only [parseHash, hd, Bool.false_and, splitDots_of_nameChars _ hall, h,
      List.all_nil, Bool.and_self, if_true, List.map_nil]
    simp

theorem parseSelector_hash_ident (frag : String) (h : isIdent frag.data = true) :
    parseSelector ("#" ++ frag) = Selector.compound frag [] := by
  have hd : ("#" ++ frag).data = '#' :: frag.data := by
    rw [String.data_append]; rfl
  unfold parseSelector
  rw [hd]
  simp only [if_true]
  exact parseHash_ident frag.data h

theorem querySelector_hash_ident (doc : Document) (frag : String)
    (h : isIdent frag.data = true) :
    querySelector doc ("#" ++ frag)
      = match doc.elements.find? (fun e => e.id == some frag) with
        | some e => QueryResult.found e.elem
        | none => QueryResult.null := by
  unfold querySelector
  rw [parseSelector_hash_ident frag h]
  simp

theorem fragmentTarget_hash_ident (doc : Document) (frag : String)
    (h : isIdent frag.data = true) :
    fragmentTarget doc (some ("#" ++ frag))
      = doc.elements.find? (fun e => e.id == some frag) := by
  have hd : ("#" ++ frag).data = '#' :: frag.data := by
    rw [String.data_append]; rfl
  have hne : frag.data ≠ [] := by
    intro e; rw [e] at h; simp [isIdent] at h
  unfold fragmentTarget
  simp only [hd]
  rw [if_pos ⟨trivial, hne⟩]

theorem anchorClick_error_ne_none_iff (doc : Document) (href : Option String) (m : Menu) :
    (anchorClick doc href m).error ≠ none ↔
      ∀ e, querySelector doc (toStr href) ≠ QueryResult.found e := by
  unfold anchorClick
  cases querySelector doc (toStr href) with
  | invalid => simp
  | null => simp
  | found e =>
    by_cases ha : m.navMenu.contains "active" = true
    · simp [ha]
    · simp [ha]

theorem anchorClick_scrolls_to_target (doc : Document) (frag : String) (m : Menu)
    (t : Element) (h : isIdent frag.data = true)
    (ht : fragmentTarget doc (some ("#" ++ frag)) = some t) :
    (anchorClick doc (some ("#" ++ frag)) m).effects
      = [Effect.preventDefault, Effect.scrollIntoView t.elem "smooth"] := by
  rw [fragmentTarget_hash_ident doc frag h] at ht
  have hq : querySelector doc (toStr (some ("#" ++ frag))) = QueryResult.found t.elem := by
    rw [toStr, querySelector_hash_ident doc frag h, ht]
  unfold anchorClick
  rw [hq]
  by_cases ha : m.navMenu.contains "active" = true
  · simp [ha]
  · simp [ha]

/-! ## Properties of the menu handlers -/

/-- C8. One hamburger click negates the `active` flag of the menu and of
the hamburger, in sync or not, and two consecutive clicks give both flags
their original values. -/
theorem hamburgerClick_involution (m : Menu) :
    ((hamburgerClick m).navMenu.contains "active" = !m.navMenu.contains "active") ∧
    ((hamburgerClick m).hamburger.contains "active" = !m.hamburger.contains "active") ∧
    ((hamburgerClick (hamburgerClick m)).navMenu.contains "active"
      = m.navMenu.contains "active") ∧
    ((hamburgerClick (hamburgerClick m)).hamburger.contains "active"
      = m.hamburger.contains "active") := by
  simp [hamburgerClick, ClassList.contains_toggle_self]

theorem hamburgerClick_inSync (m : Menu) (h : InSync m) : InSync (hamburgerClick m) := by
  unfold InSync at *
  simp [hamburgerClick, ClassList.contains_toggle_self, h]

theorem anchorClick_inSync (doc : Document) (href : Option String) (m : Menu)
    (h : InSync m) : InSync (anchorClick doc href m).menu := by
  unfold anchorClick
  cases querySelector doc (toStr href) with
  | invalid => exact h
  | null => exact h
  | found e =>
    by_cases ha : m.navMenu.contains "active" = true
    · simp [ha, InSync, ClassList.contains_remove_self]
    · simpa [ha] using h

theorem step_inSync (m : Menu) (ev : MenuEvent) (h : InSync m) : InSync (step m ev) := by
  cases ev with
  | hamburgerClick => exact hamburgerClick_inSync m h
  | anchorClick doc href => exact anchorClick_inSync doc href m h

/-- C5. A click on an anchor whose href resolves to an element `e` calls
`preventDefault`, then requests a smooth `scrollIntoView` on `e` and nothing
else, raises no error, and leaves the menu without `active`; an open menu
loses `active` on the menu and on the hamburger, a closed menu leaves both
class lists as they were. -/
theorem anchorClick_found (doc : Document) (href : Option String) (m : Menu) (e : Elem)
    (hfound : querySelector doc (toStr href) = QueryResult.found e) :
    (anchorClick doc href m).effects
        = [Effect.preventDefault, Effect.scrollIntoView e "smooth"] ∧
    (anchorClick doc href m).error = none ∧
    (anchorClick doc href m).menu.navMenu.contains "active" = false ∧
    (m.navMenu.contains "active" = true →
      (anchorClick doc href m).menu.navMenu.contains "active" = false ∧
      (anchorClick doc href m).menu.hamburger.contains "active" = false) ∧
    (m.navMenu.contains "active" = false → (anchorClick doc href m).menu = m) := by
  unfold anchorClick
  rw [hfound]
  by_cases ha : m.navMenu.contains "active" = true
  · simp [ha, ClassList.contains_remove_self]
  · simp [ha]

/-- C6, as stated, fails in both directions. With a section of id `1` and
the href `#1`, and with a section of id `my.section` and the href
`#my.section`, the referenced element exists and the handler raises
(`SyntaxError`, `TypeError`); with no element of id `my.section` but an
element of id `my` and class `section`, the href `#my.section` refers to no
element and the handler raises nothing and scrolls to that other element. -/
theorem anchorClick_error_with_target_present :
    (fragmentTarget digitDoc (some "#1")
        = some { elem := 1, id := some "1", classList := [] } ∧
      (anchorClick digitDoc (some "#1") openMenu).error = some JSError.syntaxError) ∧
    (fragmentTarget dottedOnlyDoc (some "#my.section")
        = some { elem := 1, id := some "my.section", classList := [] } ∧
      (anchorClick dottedOnlyDoc (some "#my.section") openMenu).error
        = some JSError.typeError) ∧
    (fragmentTarget classDoc (some "#my.section") = none ∧
      (anchorClick classDoc (some "#my.section") openMenu).error = none ∧
      (anchorClick classDoc (some "#my.section") openMenu).effects
        = [Effect.preventDefault, Effect.scrollIntoView 2 "smooth"]) ∧
    ¬ ∀ (doc : Document) (href : Option String) (m : Menu),
      ((anchorClick doc href m).error ≠ none ↔ fragmentTarget doc href = none) ∧
      ((anchorClick doc href m).error ≠ none → (anchorClick doc href m).menu = m) := by
  refine ⟨by decide, by decide, by decide, ?_⟩
  intro h
  have h1 := (h digitDoc (some "#1") openMenu).1
  revert h1
  decide

/-- C6, amended. The anchor click handler raises an error exactly when
`querySelector` on the href yields no element; for an href `#id` with `id` a
plain identifier that is exactly when the document has no element of that id,
the element the href refers to; and whenever the handler raises, for any href,
it stops at the lookup: the menu and hamburger class lists are what they were
before the click and no scroll was requested. -/
theorem anchorClick_error_iff_no_target (doc : Document) (href : Option String) (m : Menu) :
    ((anchorClick doc href m).error ≠ none ↔
      ∀ e, querySelector doc (toStr href) ≠ QueryResult.found e) ∧
    (∀ frag : String, isIdent frag.data = true →
      (((anchorClick doc (some ("#" ++ frag)) m).error ≠ none ↔
          fragmentTarget doc (some ("#" ++ frag)) = none) ∧
        ((anchorClick doc (some ("#" ++ frag)) m).error ≠ none ↔
          ∀ el ∈ doc.elements, el.id ≠ some frag))) ∧
    ((anchorClick doc href m).error ≠ none →
      (anchorClick doc href m).menu = m ∧
      (anchorClick doc href m).effects = [Effect.preventDefault]) := by
  refine ⟨anchorClick_error_ne_none_iff doc href m, ?_, ?_⟩
  · intro frag hfrag
    have hq := querySelector_hash_ident doc frag hfrag
    have hkey : (anchorClick doc (some ("#" ++ frag)) m).error ≠ none ↔
        doc.elements.find? (fun e => e.id == some frag) = none := by
      rw [anchorClick_error_ne_none_iff, toStr, hq]
      cases doc.elements.find? (fun e => e.id == some frag) with
      | none => simp
      | some el => simp
    refine ⟨?_, ?_⟩
    · rw [hkey, fragmentTarget_hash_ident doc frag hfrag]
    · rw [hkey, List.find?_eq_none]
      simp
  · unfold anchorClick
    cases querySelector doc (toStr href) with
    | invalid => simp
    | null => simp
    | found e =>
      by_cases ha : m.navMenu.contains "active" = true
      · simp [ha]
      · simp [ha]

/-- C7. A hamburger click and an anchor click, with an existing or a
missing target, keep the menu and the hamburger in agreement on `active`,
so every state reached from an in-sync state by these events is in sync. -/
theorem run_inSync (m : Menu) (events : List MenuEvent) (h : InSync m) :
    (∀ ev, InSync (step m ev)) ∧ InSync (run m events) := by
  refine ⟨fun ev => step_inSync m ev h, ?_⟩
  unfold run
  induction events generalizing m with
  | nil => exact h
  | cons ev rest ih => exact ih (step m ev) (step_inSync m ev h)

/-! ## Lemmas on substring search -/

theorem startsWith_iff (s t : List Char) :
    startsWith s t = true ↔ ∃ post, s = t ++ post := by
  induction t generalizing s with
  | nil => cases s <;> simp [startsWith]
  | cons b t ih =>
    cases s with
    | nil => simp [startsWith]
    | cons a s =>
      simp only [startsWith, Bool.and_eq_true, beq_iff_eq, ih, List.cons_append,
        List.cons.injEq]
      constructor
      · rintro ⟨rfl, post, rfl⟩
        exact ⟨post, rfl, rfl⟩
      · rintro ⟨post, rfl, rfl⟩
        exact ⟨rfl, post, rfl⟩

theorem includesFrom_iff (s t : List Char) :
    includesFrom s t = true ↔ ∃ pre post, s = pre ++ t ++ post := by
  induction s with
  | nil =>
    simp only [includesFrom, startsWith_iff]
    constructor
    · rintro ⟨post, h⟩
      exact ⟨[], post, by simpa using h⟩
    · rintro ⟨pre, post, h⟩
      have h2 : pre ++ (t ++ post) = [] := by simpa using h.symm
      obtain ⟨_, h3⟩ := List.append_eq_nil.mp h2
      exact ⟨post, h3.symm⟩
  | cons a s ih =>
    simp only [includesFrom, Bool.or_eq_true, startsWith_iff, ih]
    constructor
    · rintro (⟨post, h⟩ | ⟨pre, post, h⟩)
      · exact ⟨[], post, by simpa using h⟩
      · exact ⟨a :: pre, post, by simp [h]⟩
    · rintro ⟨pre, post, h⟩
      cases pre with
      | nil => exact Or.inl ⟨post, by simpa using h⟩
      | cons b pre =>
        simp only [List.cons_append, List.cons.injEq] at h
        exact Or.inr ⟨pre, post, h.2⟩

theorem includes_iff (s t : String) : includes s t = true ↔ IsSubstring t s := by
  unfold includes IsSubstring
  exact includesFrom_iff s.data t.data

theorem includes_empty (s : String) : includes s "" = true := by
  rw [includes_iff]
  exact ⟨[], s.data, by simp⟩

/-! ## Lemmas on the two loops of `updateActiveNavLink` -/

theorem currentFrom_append (hh : Int) (y : ℚ) (c : Option String) (a b : List Section) :
    currentFrom hh y c (a ++ b) = currentFrom hh y (currentFrom hh y c a) b := by
  induction a generalizing c with
  | nil => rfl
  | cons s a ih => simp [currentFrom, ih]

theorem currentFrom_none_qualify (hh : Int) (y : ℚ) (c : Option String) (l : List Section)
    (h : ∀ t ∈ l, qualifies hh y t = false) : currentFrom hh y c l = c := by
  induction l generalizing c with
  | nil => rfl
  | cons s l ih =>
    have hs : qualifies hh y s = false := h s (List.mem_cons_self _ _)
    simp only [currentFrom, hs]
    exact ih c (fun t ht => h t (List.mem_cons_of_mem _ ht))

theorem currentSection_last (hh : Int) (y : ℚ) (pre post : List Section) (s : Section)
    (hq : qualifies hh y s = true) (hpost : ∀ t ∈ post, qualifies hh y t = false) :
    currentSection hh y (pre ++ s :: post) = s.id := by
  unfold currentSection
  rw [currentFrom_append]
  simp only [currentFrom, hq, if_true]
  exact currentFrom_none_qualify hh y s.id post hpost

theorem markLinks_all_href (current : Option String) (links : List NavLink)
    (h : ∀ l ∈ links, l.href ≠ none) :
    markLinks current links = (links.map (markOne current), none) := by
  induction links with
  | nil => rfl
  | cons l rest ih =>
    have hl : l.href ≠ none := h l (List.mem_cons_self _ _)
    have ih2 := ih (fun t ht => h t (List.mem_cons_of_mem _ ht))
    cases hhref : l.href with
    | none => exact absurd hhref hl
    | some hr =>
      simp only [markLinks, hhref, ih2, List.map_cons, markOne, Option.getD_some]

theorem markOne_active (current : Option String) (l : NavLink) :
    (markOne current l).classList.contains "active"
      = includes ((l.href).getD "") (toStr current) := by
  unfold markOne
  cases includes ((l.href).getD "") (toStr current)
  · simp [ClassList.contains_remove_self]
  · simp [ClassList.contains_add_self]

theorem markOne_href (current : Option String) (l : NavLink) :
    (markOne current l).href = l.href := by
  unfold markOne
  split <;> rfl

theorem qualifies_eq_true_iff (hh : Int) (y : ℚ) (s : Section) :
    qualifies hh y s = true ↔ (s.offsetTop : ℚ) - hh ≤ y := by
  simp [qualifies]

theorem qualifies_eq_false_iff (hh : Int) (y : ℚ) (s : Section) :
    qualifies hh y s = false ↔ y < (s.offsetTop : ℚ) - hh := by
  unfold qualifies
  rw [decide_eq_false_iff_not, not_le]
  push_cast
  exact Iff.rfl

/-! ## Properties of the scroll handlers -/

/-- C1. When `s` is the last section in document order with
`scrollY >= offsetTop - headerHeight` and its id is `i`, then whatever the
sections before it and the prior classes of the links, `updateActiveNavLink`
raises nothing, keeps every link's href, and leaves a link with the `active`
class exactly when its href contains `i` as a substring. -/
theorem updateActiveNavLink_active_iff (pre post : List Section) (s : Section) (i : String)
    (headerHeight : Int) (scrollY : ℚ) (navLinks : List NavLink)
    (hq : (s.offsetTop : ℚ) - headerHeight ≤ scrollY)
    (hpost : ∀ t ∈ post, scrollY < (t.offsetTop : ℚ) - headerHeight)
    (hid : s.id = some i)
    (hhref : ∀ l ∈ navLinks, l.href ≠ none) :
    (updateActiveNavLink (pre ++ s :: post) headerHeight scrollY navLinks).2 = none ∧
    List.Forall₂
      (fun old new => new.href = old.href ∧
        ∀ h, old.href = some h →
          (new.classList.contains "active" = true ↔ IsSubstring i h))
      navLinks
      (updateActiveNavLink (pre ++ s :: post) headerHeight scrollY navLinks).1 := by
  have hcur : currentSection headerHeight scrollY (pre ++ s :: post) = some i := by
    rw [currentSection_last headerHeight scrollY pre post s
      ((qualifies_eq_true_iff _ _ _).mpr hq)
      (fun t ht => (qualifies_eq_false_iff _ _ _).mpr (hpost t ht)), hid]
  unfold updateActiveNavLink
  rw [hcur, markLinks_all_href _ _ hhref]
  refine ⟨rfl, ?_⟩
  rw [List.forall₂_map_right_iff, List.forall₂_same]
  intro l _
  refine ⟨markOne_href _ l, ?_⟩
  intro h hh
  rw [markOne_active, hh, ← includes_iff]
  rfl

/-- C10. When no section satisfies `scrollY >= offsetTop - headerHeight`
(in particular when there is no section), `current` stays the empty string,
every href contains it, and every nav link ends with the `active` class. -/
theorem updateActiveNavLink_no_current (sections : List Section) (headerHeight : Int)
    (scrollY : ℚ) (navLinks : List NavLink)
    (hnone : ∀ t ∈ sections, scrollY < (t.offsetTop : ℚ) - headerHeight)
    (hhref : ∀ l ∈ navLinks, l.href ≠ none) :
    currentSection headerHeight scrollY sections = some "" ∧
    (∀ href : String, includes href "" = true) ∧
    (updateActiveNavLink sections headerHeight scrollY navLinks).2 = none ∧
    (updateActiveNavLink sections headerHeight scrollY navLinks).1.length
      = navLinks.length ∧
    ∀ l ∈ (updateActiveNavLink sections headerHeight scrollY navLinks).1,
      l.classList.contains "active" = true := by
  have hcur : currentSection headerHeight scrollY sections = some "" :=
    currentFrom_none_qualify headerHeight scrollY (some "") sections
      (fun t ht => (qualifies_eq_false_iff _ _ _).mpr (hnone t ht))
  refine ⟨hcur, includes_empty, ?_⟩
  unfold updateActiveNavLink
  rw [hcur, markLinks_all_href _ _ hhref]
  refine ⟨rfl, by simp, ?_⟩
  intro l hl
  obtain ⟨l0, _, rfl⟩ := List.mem_map.mp hl
  rw [markOne_active]
  exact includes_empty _

/-- C2. After the scroll handler the button's display is `block` exactly
when the scroll offset exceeds 300 and `none` otherwise, whatever it was
before; at offset 300 the button is hidden. -/
theorem scrollToTopScroll_strict (s : ℚ) (prior : String) :
    (scrollToTopScroll s prior = "block" ↔ s > 300) ∧
    (scrollToTopScroll s prior = "none" ↔ ¬ s > 300) ∧
    scrollToTopScroll 300 prior = "none" := by
  unfold scrollToTopScroll
  refine ⟨?_, ?_, by simp⟩
  · by_cases h : s > 300
    · simp [h]
    · simp only [h, if_false, iff_false]; decide
  · by_cases h : s > 300
    · simp only [h, if_true, not_true_eq_false, iff_false]; decide
    · simp [h]

/-- C3, as stated, fails: at scroll offset 300, which is `>= 300`, the
handler hides the button. -/
theorem scrollToTopScroll_at_threshold_hidden :
    ¬ ∀ (s : ℚ) (prior : String),
      (s ≥ 300 → scrollToTopScroll s prior = "block") ∧
      (s < 300 → scrollToTopScroll s prior = "none") := by
  intro h
  have h300 := (h 300 "none").1 (le_refl _)
  simp [scrollToTopScroll] at h300

/-- C3, amended. For every scroll offset above 300 the handler leaves the
button shown, and for every offset of 300 or less it leaves it hidden. -/
theorem scrollToTopScroll_threshold (s : ℚ) (prior : String) :
    (s > 300 → scrollToTopScroll s prior = "block") ∧
    (s ≤ 300 → scrollToTopScroll s prior = "none") := by
  unfold scrollToTopScroll
  constructor
  · intro h; simp [h]
  · intro h; simp [not_lt.mpr h]

/-- C9. After the scroll handler the header has the compact style exactly
when the scroll offset is positive and the expanded style exactly when it is
zero or less; the prior style plays no part. -/
theorem headerScroll_threshold (s : ℚ) (prior prior2 : HeaderStyle) :
    (headerScroll s prior
        = { padding := "10px 0", boxShadow := "0 2px 15px rgba(0, 0, 0, 0.1)" }
      ↔ s > 0) ∧
    (headerScroll s prior
        = { padding := "15px 0", boxShadow := "0 2px 10px rgba(0, 0, 0, 0.05)" }
      ↔ s ≤ 0) ∧
    headerScroll 0 prior
        = { padding := "15px 0", boxShadow := "0 2px 10px rgba(0, 0, 0, 0.05)" } ∧
    headerScroll s prior = headerScroll s prior2 := by
  unfold headerScroll
  refine ⟨?_, ?_, by simp, rfl⟩
  · by_cases h : s > 0
    · simp [h]
    · simp only [h, if_false, iff_false]; decide
  · by_cases h : s > 0
    · simp only [h, if_true, not_le.mpr h, iff_false]; decide
    · simp only [h, if_false, true_iff]; exact not_lt.mp h

theorem revealOne_active (h : Int) (r : RevealElem) :
    (revealOne h r).classList.contains "active" = decide (r.top < (h : ℚ) - 150) := by
  unfold revealOne
  by_cases hlt : r.top < (h : ℚ) - 150
  · have : r.top < (((h - 150 : Int)) : ℚ) := by push_cast; exact hlt
    simp [this, hlt, ClassList.contains_add_self]
  · have : ¬ r.top < (((h - 150 : Int)) : ℚ) := by push_cast; exact hlt
    simp [this, hlt, ClassList.contains_remove_self]

theorem revealOne_idem (h : Int) (r : RevealElem) :
    revealOne h (revealOne h r) = revealOne h r := by
  by_cases hlt : r.top < (((h - 150 : Int)) : ℚ)
  · have e : revealOne h r = { r with classList := r.classList.add "active" } := by
      unfold revealOne; exact if_pos hlt
    rw [e]
    unfold revealOne
    rw [if_pos hlt, ClassList.add_eq_self _ _ (ClassList.contains_add_self _ _)]
  · have e : revealOne h r = { r with classList := r.classList.remove "active" } := by
      unfold revealOne; exact if_neg hlt
    rw [e]
    unfold revealOne
    rw [if_neg hlt, ClassList.remove_eq_self _ _ (ClassList.contains_remove_self _ _)]

/-- C4. After `reveal` every element keeps its position and has the
`active` class exactly when `top < viewportHeight - 150`, a function of the
geometry alone; running `reveal` twice equals running it once; and with
viewport height 800 an element with any prior classes is active at top 100,
not active at top 700, and active again back at top 100. -/
theorem reveal_active_iff (h : Int) (reveals : List RevealElem) (c : ClassList) :
    (reveal h reveals).map (fun r => r.top) = reveals.map (fun r => r.top) ∧
    (reveal h reveals).map (fun r => r.classList.contains "active")
      = reveals.map (fun r => decide (r.top < (h : ℚ) - 150)) ∧
    reveal h (reveal h reveals) = reveal h reveals ∧
    (reveal 800 [⟨100, c⟩]).map (fun r => r.classList.contains "active") = [true] ∧
    (reveal 800 (setTops [700] (reveal 800 [⟨100, c⟩]))).map
      (fun r => r.classList.contains "active") = [false] ∧
    (reveal 800 (setTops [100] (reveal 800 (setTops [700] (reveal 800 [⟨100, c⟩]))))).map
      (fun r => r.classList.contains "active") = [true] := by
  refine ⟨?_, ?_, ?_, ?_, ?_, ?_⟩
  · simp only [reveal, List.map_map]
    apply List.map_congr_left
    intro r _
    simp only [Function.comp, revealOne]
    split <;> rfl
  · simp only [reveal, List.map_map]
    apply List.map_congr_left
    intro r _
    exact revealOne_active h r
  · simp only [reveal, List.map_map]
    apply List.map_congr_left
    intro r _
    exact revealOne_idem h r
  · simp only [reveal, List.map, revealOne_active]
    norm_num
  · simp only [reveal, setTops, List.map, List.zipWith, revealOne_active]
    norm_num
  · simp only [reveal, setTops, List.map, List.zipWith, revealOne_active]
    norm_num

/-! ## The properties at the sample page -/

/-- The highlighting property at the sample page: sections at 0, 500 and 1000,
header height 50, scroll offset 600. The current section is `S2` and of the
links `#S1`, `#S2`, `#S3` only `#S2` is active. -/
theorem updateActiveNavLink_active_iff_witness :
    ((S2.offsetTop : ℚ) - (50 : Int) ≤ 600) ∧
    (∀ t ∈ [S3], (600 : ℚ) < (t.offsetTop : ℚ) - (50 : Int)) ∧
    S2.id = some "S2" ∧
    (∀ l ∈ sampleLinks, l.href ≠ none) ∧
    ((updateActiveNavLink ([S1] ++ S2 :: [S3]) 50 600 sampleLinks).2 = none ∧
      List.Forall₂
        (fun old new => new.href = old.href ∧
          ∀ h, old.href = some h →
            (new.classList.contains "active" = true ↔ IsSubstring "S2" h))
        sampleLinks
        (updateActiveNavLink ([S1] ++ S2 :: [S3]) 50 600 sampleLinks).1) ∧
    currentSection 50 600 [S1, S2, S3] = some "S2" ∧
    (updateActiveNavLink [S1, S2, S3] 50 600 sampleLinks).1.map
        (fun l => (l.href, l.classList.contains "active"))
      = [(some "#S1", false), (some "#S2", true), (some "#S3", false)] :=
  ⟨by norm_num [S2], by norm_num [S3], rfl, by decide,
    updateActiveNavLink_active_iff [S1] [S3] S2 "S2" 50 600 sampleLinks
      (by norm_num [S2]) (by norm_num [S3]) rfl (by decide),
    by decide, by decide⟩

/-- The no-current-section property at scroll offset 100 with sections at 500
and 1000 and header height 50, and on a page without sections: all three
links end active. -/
theorem updateActiveNavLink_no_current_witness :
    (∀ t ∈ [S2, S3], (100 : ℚ) < (t.offsetTop : ℚ) - (50 : Int)) ∧
    (∀ l ∈ sampleLinks, l.href ≠ none) ∧
    (currentSection 50 100 [S2, S3] = some "" ∧
      (∀ href : String, includes href "" = true) ∧
      (updateActiveNavLink [S2, S3] 50 100 sampleLinks).2 = none ∧
      (updateActiveNavLink [S2, S3] 50 100 sampleLinks).1.length = sampleLinks.length ∧
      ∀ l ∈ (updateActiveNavLink [S2, S3] 50 100 sampleLinks).1,
        l.classList.contains "active" = true) ∧
    (updateActiveNavLink [S2, S3] 50 100 sampleLinks).1.map
        (fun l => (l.href, l.classList.contains "active"))
      = [(some "#S1", true), (some "#S2", true), (some "#S3", true)] ∧
    (updateActiveNavLink [] 50 100 sampleLinks).1.map
        (fun l => (l.href, l.classList.contains "active"))
      = [(some "#S1", true), (some "#S2", true), (some "#S3", true)] :=
  ⟨by norm_num [S2, S3], by decide,
    updateActiveNavLink_no_current [S2, S3] 50 100 sampleLinks
      (by norm_num [S2, S3]) (by decide),
    by decide, by decide⟩

/-- The amended threshold property at offsets 301 and 300. -/
theorem scrollToTopScroll_threshold_witness :
    ((301 : ℚ) > 300 ∧ scrollToTopScroll 301 "none" = "block") ∧
    ((300 : ℚ) ≤ 300 ∧ scrollToTopScroll 300 "block" = "none") :=
  ⟨⟨by decide, (scrollToTopScroll_threshold 301 "none").1 (by decide)⟩,
    ⟨by decide, (scrollToTopScroll_threshold 300 "block").2 (by decide)⟩⟩

/-- The anchor click property at the sample document, for an open and for a
closed menu. -/
theorem anchorClick_found_witness :
    querySelector sampleDoc (toStr (some "#S2")) = QueryResult.found 2 ∧
    openMenu.navMenu.contains "active" = true ∧
    ((anchorClick sampleDoc (some "#S2") openMenu).effects
        = [Effect.preventDefault, Effect.scrollIntoView 2 "smooth"] ∧
      (anchorClick sampleDoc (some "#S2") openMenu).error = none ∧
      (anchorClick sampleDoc (some "#S2") openMenu).menu.navMenu.contains "active" = false ∧
      (openMenu.navMenu.contains "active" = true →
        (anchorClick sampleDoc (some "#S2") openMenu).menu.navMenu.contains "active" = false ∧
        (anchorClick sampleDoc (some "#S2") openMenu).menu.hamburger.contains "active"
          = false) ∧
      (openMenu.navMenu.contains "active" = false →
        (anchorClick sampleDoc (some "#S2") openMenu).menu = openMenu)) ∧
    (anchorClick sampleDoc (some "#S2") openMenu).menu
      = { navMenu := ["nav-menu"], hamburger := ["hamburger"] } ∧
    (anchorClick sampleDoc (some "#S2") closedMenu).menu = closedMenu :=
  ⟨by decide, by decide,
    anchorClick_found sampleDoc (some "#S2") openMenu 2 (by decide),
    by decide,
    (anchorClick_found sampleDoc (some "#S2") closedMenu 2 (by decide)).2.2.2.2 (by decide)⟩

/-- The amended missing-target property at the sample document: the href
`#S9` is a plain identifier reference, no element has the id `S9`, the handler
raises a `TypeError`, and the open menu stays open; `#S2` raises nothing. -/
theorem anchorClick_error_iff_no_target_witness :
    isIdent "S9".data = true ∧
    (∀ el ∈ sampleDoc.elements, el.id ≠ some "S9") ∧
    fragmentTarget sampleDoc (some ("#" ++ "S9")) = none ∧
    (anchorClick sampleDoc (some ("#" ++ "S9")) openMenu).error ≠ none ∧
    (anchorClick sampleDoc (some "#S9") openMenu).error = some JSError.typeError ∧
    ((anchorClick sampleDoc (some "#S9") openMenu).menu = openMenu ∧
      (anchorClick sampleDoc (some "#S9") openMenu).effects = [Effect.preventDefault]) ∧
    (anchorClick sampleDoc (some "#S2") openMenu).error = none ∧
    (anchorClick sampleDoc (some "#") openMenu).error = some JSError.syntaxError ∧
    (anchorClick sampleDoc (some "") openMenu).error = some JSError.syntaxError :=
  ⟨by decide, by decide, by decide,
    (((anchorClick_error_iff_no_target sampleDoc (some "#S9") openMenu).2.1
      "S9" (by decide)).2).mpr (by decide),
    by decide,
    (anchorClick_error_iff_no_target sampleDoc (some "#S9") openMenu).2.2 (by decide),
    by decide, by decide, by decide⟩

/-- The lockstep invariant along a run of five events from the open menu. -/
theorem run_inSync_witness :
    InSync openMenu ∧
    ((∀ ev, InSync (step openMenu ev)) ∧
      InSync (run openMenu
        [MenuEvent.hamburgerClick, MenuEvent.anchorClick sampleDoc (some "#S2"),
         MenuEvent.hamburgerClick, MenuEvent.anchorClick sampleDoc (some "#S9"),
         MenuEvent.anchorClick sampleDoc (some "#S2")])) ∧
    run openMenu
        [MenuEvent.hamburgerClick, MenuEvent.anchorClick sampleDoc (some "#S2"),
         MenuEvent.hamburgerClick, MenuEvent.anchorClick sampleDoc (some "#S9"),
         MenuEvent.anchorClick sampleDoc (some "#S2")]
      = closedMenu :=
  ⟨by decide, run_inSync openMenu _ (by decide), by decide⟩

end Script
